import Mathlib

/-!
Verification of the document ingestion pipeline.

Shallow embedding of the core of the repository:
the document store and its status-update operation (src/shared/database.py),
the semantic chunker (src/processing_service/processors/semantic_chunker.py),
the stage-1 processing task (src/processing_service/tasks/process_document.py),
the stage-2 embedding task (src/embedding_service/tasks/embed_document.py),
the vector-index write (src/shared/vector_store.py), and
the ingestion route (src/ingestion_service/routes/ingest.py).

Timestamps are modelled as natural-number ticks; SQLite rows become Lean
structures and tables become lists of rows; Python exceptions become
Except values.
-/

namespace IngestionPipeline

/-- Result of a fallible operation; True on the error constructor.
Models whether a Python call raised. -/
def isErr {ε α : Type} : Except ε α → Bool
  | .error _ => true
  | .ok _ => false

/-- Key/value map attached to documents and chunks.  Python dicts are
modelled as association lists. -/
abbrev Metadata := List (String × String)

/-! ## Document store (src/shared/database.py) -/

/-- Row of the documents table (src/shared/database.py, SCHEMA lines 15-28). -/
structure DocumentRecord where
  document_id : String
  filename : String
  file_path : String
  file_type : String
  file_size : Nat
  status : String
  upload_time : Nat
  processing_started_time : Option Nat
  processing_completed_time : Option Nat
  error_message : Option String
  created_at : Nat
  updated_at : Nat
deriving DecidableEq, Repr

/-- Effect of update_document_status on a single matching row
(src/shared/database.py lines 134-158): the requested status and the
error_message argument are written unconditionally; a transition to
"processing" writes processing_started_time, a transition to "completed"
or "failed" writes processing_completed_time, and updated_at is refreshed. -/
def applyStatusUpdate (d : DocumentRecord) (status : String)
    (error_message : Option String) (now : Nat) : DocumentRecord :=
  if status = "processing" then
    { d with
      status := status, processing_started_time := some now,
      error_message := error_message, updated_at := now }
  else if status = "completed" ∨ status = "failed" then
    { d with
      status := status, processing_completed_time := some now,
      error_message := error_message, updated_at := now }
  else
    { d with status := status, error_message := error_message, updated_at := now }

/-- Embedding of update_document_status (src/shared/database.py lines
118-164): the SQL UPDATE ... WHERE document_id = ? applies
applyStatusUpdate to every row whose document_id matches, leaving other
rows untouched. -/
def update_document_status (store : List DocumentRecord) (document_id : String)
    (status : String) (error_message : Option String) (now : Nat) :
    List DocumentRecord :=
  store.map fun d =>
    if d.document_id = document_id then applyStatusUpdate d status error_message now
    else d

/-- Embedding of get_document (src/shared/database.py lines 167-189):
SELECT the first row with the given document_id. -/
def get_document (store : List DocumentRecord) (document_id : String) :
    Option DocumentRecord :=
  store.find? fun d => d.document_id == document_id

lemma applyStatusUpdate_status (d : DocumentRecord) (s : String)
    (e : Option String) (n : Nat) : (applyStatusUpdate d s e n).status = s := by
  unfold applyStatusUpdate
  split_ifs <;> rfl

lemma applyStatusUpdate_document_id (d : DocumentRecord) (s : String)
    (e : Option String) (n : Nat) :
    (applyStatusUpdate d s e n).document_id = d.document_id := by
  unfold applyStatusUpdate
  split_ifs <;> rfl

lemma applyStatusUpdate_error_message (d : DocumentRecord) (s : String)
    (e : Option String) (n : Nat) :
    (applyStatusUpdate d s e n).error_message = e := by
  unfold applyStatusUpdate
  split_ifs <;> rfl

lemma applyStatusUpdate_processing_started (d : DocumentRecord)
    (e : Option String) (n : Nat) :
    (applyStatusUpdate d "processing" e n).processing_started_time = some n := by
  unfold applyStatusUpdate
  rw [if_pos rfl]

/-- Membership in an updated store comes from membership in the old store. -/
lemma mem_update_document_status {store : List DocumentRecord}
    {document_id status : String} {e : Option String} {now : Nat}
    {d : DocumentRecord}
    (hd : d ∈ update_document_status store document_id status e now) :
    ∃ d₀ ∈ store,
      d = (if d₀.document_id = document_id then applyStatusUpdate d₀ status e now else d₀) := by
  unfold update_document_status at hd
  obtain ⟨d₀, hd₀, heq⟩ := List.mem_map.mp hd
  exact ⟨d₀, hd₀, heq.symm⟩

/-- Every row of the updated store that carries the targeted document_id
has the requested status, the supplied error message, and, on a
"processing" transition, the fresh timestamp. -/
lemma update_document_status_targeted {store : List DocumentRecord}
    {document_id status : String} {e : Option String} {now : Nat}
    {d : DocumentRecord}
    (hd : d ∈ update_document_status store document_id status e now)
    (hid : d.document_id = document_id) :
    d.status = status ∧ d.error_message = e ∧
      (status = "processing" → d.processing_started_time = some now) := by
  obtain ⟨d₀, _, heq⟩ := mem_update_document_status hd
  by_cases h : d₀.document_id = document_id
  · rw [if_pos h] at heq
    subst heq
    refine ⟨applyStatusUpdate_status .., applyStatusUpdate_error_message .., ?_⟩
    intro hs
    subst hs
    exact applyStatusUpdate_processing_started ..
  · rw [if_neg h] at heq
    subst heq
    exact absurd hid h

/-- Sample row: a freshly uploaded document. -/
def docUploaded : DocumentRecord :=
  { document_id := "d1", filename := "a.pdf", file_path := "/app/storage/uploads/d1_a.pdf",
    file_type := "pdf", file_size := 10, status := "uploaded", upload_time := 1,
    processing_started_time := none, processing_completed_time := none,
    error_message := none, created_at := 1, updated_at := 1 }

/-- Sample row: a document already in "processing" with its start time stamped. -/
def docProcessing : DocumentRecord :=
  { docUploaded with status := "processing", processing_started_time := some 3 }

/-- Sample row: a document that previously failed with an error message. -/
def docFailed : DocumentRecord :=
  { docUploaded with
    status := "failed", processing_completed_time := some 4,
    error_message := some "Processing failed: boom" }

/-- C1: counterexample.  update_document_status applies a direct
uploaded → completed transition to the store instead of refusing it: on a
store holding one uploaded document, requesting "completed" changes the
store and the stored status becomes "completed". -/
theorem c1_transition_not_refused :
    (update_document_status [docUploaded] "d1" "completed" none 5).map
        DocumentRecord.status = ["completed"] ∧
      update_document_status [docUploaded] "d1" "completed" none 5 ≠ [docUploaded] := by
  decide

/-- C1 (amended): update_document_status performs no state-machine
validation at all — every row matching the targeted document_id receives
exactly the requested status, whatever its prior status was (in
particular uploaded → completed, uploaded → failed, and re-entering
"uploaded" are all applied to the store). -/
theorem c1_update_applies_any_status (store : List DocumentRecord)
    (document_id status : String) (e : Option String) (now : Nat)
    (d : DocumentRecord)
    (hd : d ∈ update_document_status store document_id status e now)
    (hid : d.document_id = document_id) :
    d.status = status :=
  (update_document_status_targeted hd hid).1

/-- C1 (amended) witness: the amended theorem applied to the concrete
one-document store, driven from "uploaded" straight to "completed". -/
theorem c1_update_applies_any_status_witness :
    (applyStatusUpdate docUploaded "completed" none 5).status = "completed" :=
  c1_update_applies_any_status [docUploaded] "d1" "completed" none 5
    (applyStatusUpdate docUploaded "completed" none 5) (by decide) (by decide)

/-- C2: counterexample.  Re-entering "processing" overwrites an
already-set processing_started_time: a document whose start time is 3 has
start time 7 after a second "processing" update at time 7. -/
theorem c2_processing_time_overwritten :
    (update_document_status [docProcessing] "d1" "processing" none 7).map
        DocumentRecord.processing_started_time = [some 7] ∧
      (some 7 : Option Nat) ≠ some 3 := by
  decide

/-- C2 (amended): a transition to "processing" always stamps
processing_started_time with the current time, overwriting any
previously set value — the "first occurrence only" guard does not exist
in update_document_status. -/
theorem c2_processing_time_always_stamped (store : List DocumentRecord)
    (document_id : String) (e : Option String) (now : Nat) (d : DocumentRecord)
    (hd : d ∈ update_document_status store document_id "processing" e now)
    (hid : d.document_id = document_id) :
    d.processing_started_time = some now :=
  (update_document_status_targeted hd hid).2.2 rfl

/-- C2 (amended) witness: the amended theorem applied to the concrete
store whose document already carries start time 3, re-entering
"processing" at time 7. -/
theorem c2_processing_time_always_stamped_witness :
    (applyStatusUpdate docProcessing "processing" none 7).processing_started_time
      = some 7 :=
  c2_processing_time_always_stamped [docProcessing] "d1" none 7
    (applyStatusUpdate docProcessing "processing" none 7) (by decide) (by decide)

/-- C10: every call of update_document_status overwrites the targeted
document's error_message with the error_message argument; with the
default (none) a later successful transition clears a prior failure's
error text. -/
theorem c10_error_message_overwritten (store : List DocumentRecord)
    (document_id status : String) (e : Option String) (now : Nat)
    (d : DocumentRecord)
    (hd : d ∈ update_document_status store document_id status e now)
    (hid : d.document_id = document_id) :
    d.error_message = e :=
  (update_document_status_targeted hd hid).2.1

/-- C10 witness: the theorem applied to a store holding a previously
failed document (error_message set): transitioning it to "processing"
with no message leaves error_message cleared. -/
theorem c10_error_message_overwritten_witness :
    (applyStatusUpdate docFailed "processing" none 9).error_message = none :=
  c10_error_message_overwritten [docFailed] "d1" "processing" none 9
    (applyStatusUpdate docFailed "processing" none 9) (by decide) (by decide)

/-! ## Semantic chunker (src/processing_service/processors/semantic_chunker.py)

The chunker's splitting engine is the RecursiveCharacterTextSplitter of
the langchain dependency, configured in SemanticChunker with the
separator cascade of src lines 40-50.  The splitter itself is not part
of this repository's source tree, so it is modelled from the spec
(section 4.4): split on the most semantic boundary first, greedily pack
segments up to max_size, start the next chunk overlap characters before
the end of the prior one, keep separators attached to the segment they
terminate, and fall back to the next boundary level (ultimately the
character level) when a candidate chunk still exceeds max_size.
Recursions are driven by an explicit fuel argument that the top-level
entry points instantiate generously; exhausted fuel returns the
remaining text as one segment, so every function below is total and
returns a non-empty list. -/

/-- Separator cascade configured in SemanticChunker (src lines 40-50):
paragraph break, line break, sentence punctuation, clause punctuation,
single space.  The final empty-string separator of the source list is
the character-level fallback, represented here by the empty cascade. -/
def separators : List (List Char) :=
  [['\n', '\n'], ['\n'], ['.', ' '], ['!', ' '], ['?', ' '], [';', ' '], [',', ' '], [' ']]

/-- Modelled from the spec: split a character list at every occurrence
of the separator, keeping the separator attached to the segment it
terminates (spec 4.4: "The separator itself is retained in the chunk it
terminates, not stripped"). -/
def splitKeepSep (sep : List Char) : Nat → List Char → List Char → List (List Char)
  | _, acc, [] => [acc.reverse]
  | 0, acc, cs => [acc.reverse ++ cs]
  | fuel + 1, acc, c :: rest =>
    if sep.isPrefixOf (c :: rest) then
      (acc.reverse ++ sep) :: splitKeepSep sep fuel [] ((c :: rest).drop sep.length)
    else
      splitKeepSep sep fuel (c :: acc) rest

/-- Modelled from the spec: the hard character boundary (spec 4.4, level
6), cutting fixed-size windows of max_size characters that advance by
step = max_size - overlap characters (at least one, so the cut always
makes progress). -/
def hardSplit (maxSize step : Nat) : Nat → List Char → List (List Char)
  | 0, cs => [cs]
  | fuel + 1, cs =>
    if cs.length ≤ maxSize then [cs]
    else cs.take maxSize :: hardSplit maxSize step fuel (cs.drop (max 1 step))

/-- Modelled from the spec: greedy packing (spec 4.4: "segments are
greedily packed into a running chunk until adding the next segment would
exceed max_size; when a chunk is closed, the next chunk begins overlap
characters before the end of the prior chunk"). -/
def packSegments (maxSize overlap : Nat) : List (List Char) → List Char → List (List Char)
  | [], acc => [acc]
  | seg :: rest, acc =>
    if acc = [] ∨ acc.length + seg.length ≤ maxSize then
      packSegments maxSize overlap rest (acc ++ seg)
    else
      acc :: packSegments maxSize overlap rest (acc.drop (acc.length - overlap) ++ seg)

/-- Modelled from the spec: the cascading recursive splitter (spec 4.4):
text that fits in max_size is one chunk; otherwise split on the current
boundary level, pack greedily, and send any packed chunk that still
exceeds max_size down to the next boundary level, ending at the hard
character boundary. -/
def recursiveSplit (maxSize overlap : Nat) : Nat → List (List Char) → List Char → List (List Char)
  | 0, _, cs => [cs]
  | _ + 1, [], cs =>
    if cs.length ≤ maxSize then [cs]
    else hardSplit maxSize (maxSize - overlap) cs.length cs
  | fuel + 1, sep :: rest, cs =>
    if cs.length ≤ maxSize then [cs]
    else
      (packSegments maxSize overlap (splitKeepSep sep cs.length [] cs) []).flatMap
        fun chunk =>
          if chunk.length ≤ maxSize then [chunk]
          else recursiveSplit maxSize overlap fuel rest chunk

/-- Top-level split of a string into chunk strings, running the cascade
with enough fuel to reach the character-level fallback. -/
def splitText (maxSize overlap : Nat) (text : String) : List String :=
  (recursiveSplit maxSize overlap (separators.length + 1) separators text.toList).map
    fun cs => String.mk cs

lemma splitKeepSep_ne_nil (sep : List Char) (fuel : Nat) (acc cs : List Char) :
    splitKeepSep sep fuel acc cs ≠ [] := by
  induction fuel generalizing acc cs with
  | zero => cases cs <;> simp [splitKeepSep]
  | succ n ih =>
    cases cs with
    | nil => simp [splitKeepSep]
    | cons c rest =>
      rw [splitKeepSep]
      split
      · simp
      · exact ih _ _

lemma hardSplit_ne_nil (maxSize step fuel : Nat) (cs : List Char) :
    hardSplit maxSize step fuel cs ≠ [] := by
  cases fuel with
  | zero => simp [hardSplit]
  | succ n =>
    rw [hardSplit]
    split <;> simp

lemma packSegments_ne_nil (maxSize overlap : Nat) (segs : List (List Char))
    (acc : List Char) : packSegments maxSize overlap segs acc ≠ [] := by
  induction segs generalizing acc with
  | nil => simp [packSegments]
  | cons seg rest ih =>
    rw [packSegments]
    split
    · exact ih _
    · simp

lemma flatMap_ne_nil {α β : Type} (l : List α) (f : α → List β)
    (hl : l ≠ []) (hf : ∀ x ∈ l, f x ≠ []) : l.flatMap f ≠ [] := by
  cases l with
  | nil => exact absurd rfl hl
  | cons a rest =>
    have ha : f a ≠ [] := hf a (List.mem_cons_self a rest)
    simp only [List.flatMap_cons]
    intro hcontra
    exact ha (List.append_eq_nil.mp hcontra).1

lemma recursiveSplit_ne_nil (maxSize overlap fuel : Nat) (seps : List (List Char))
    (cs : List Char) : recursiveSplit maxSize overlap fuel seps cs ≠ [] := by
  induction fuel generalizing seps cs with
  | zero => simp [recursiveSplit]
  | succ n ih =>
    cases seps with
    | nil =>
      rw [recursiveSplit]
      split
      · simp
      · exact hardSplit_ne_nil _ _ _ _
    | cons sep rest =>
      rw [recursiveSplit]
      split
      · simp
      · refine flatMap_ne_nil _ _ (packSegments_ne_nil _ _ _ _) ?_
        intro chunk _
        split
        · simp
        · exact ih _ _

lemma splitText_ne_nil (maxSize overlap : Nat) (text : String) :
    splitText maxSize overlap text ≠ [] := by
  unfold splitText
  simp only [ne_eq, List.map_eq_nil_iff]
  exact recursiveSplit_ne_nil _ _ _ _ _

/-! ## SemanticChunker construction and chunk_text -/

/-- Default chunk size (src/shared/config.py line 46). -/
def CHUNK_SIZE : Nat := 512

/-- Default chunk overlap (src/shared/config.py line 47). -/
def CHUNK_OVERLAP : Nat := 50

/-- Python's falsy-or fallback, as in `chunk_size or settings.CHUNK_SIZE`
(src/processing_service/processors/semantic_chunker.py lines 31-32):
None and 0 both fall back to the default. -/
def orDefault (x : Option Nat) (d : Nat) : Nat :=
  match x with
  | none => d
  | some n => if n = 0 then d else n

/-- Chunker configuration held by SemanticChunker (src lines 31-32). -/
structure SemanticChunker where
  chunk_size : Nat
  chunk_overlap : Nat
deriving DecidableEq, Repr

/-- Embedding of SemanticChunker.__init__ (src lines 19-53).  The size
and overlap fall back to the configured defaults via Python's falsy or.
Modelled from the spec: the validation that rejects overlap ≥ max_size
("configuration error, must be rejected", spec 4.4) is performed by the
underlying text-splitter library constructed on src line 36, whose code
is not part of this repository's source tree. -/
def mkSemanticChunker (chunk_size chunk_overlap : Option Nat) :
    Except String SemanticChunker :=
  let size := orDefault chunk_size CHUNK_SIZE
  let overlap := orDefault chunk_overlap CHUNK_OVERLAP
  if size ≤ overlap then
    .error "chunk overlap must be smaller than chunk size"
  else
    .ok { chunk_size := size, chunk_overlap := overlap }

/-- Blank test of src line 76, `not text or not text.strip()`: True for
the empty string and for whitespace-only strings (a stripped string is
empty exactly when every character is whitespace; the Python whitespace
set is modelled by Char.isWhitespace). -/
def pythonBlank (text : String) : Bool :=
  text.isEmpty || text.toList.all Char.isWhitespace

/-- Output chunk of SemanticChunker.chunk_text (src lines 93-98). -/
structure Chunk where
  chunk_index : Nat
  chunk_text : String
  chunk_size : Nat
  metadata : Metadata
deriving DecidableEq, Repr

/-- Embedding of SemanticChunker.chunk_text (src lines 60-106): raise on
blank input (line 76-77), split the text (line 88), and enumerate the
pieces into chunk dictionaries whose chunk_index is the enumeration
position and whose chunk_size is the length of the piece (lines 92-99). -/
def SemanticChunker.chunk_text (c : SemanticChunker) (text : String)
    (metadata : Metadata) : Except String (List Chunk) :=
  if pythonBlank text then
    .error "Cannot chunk empty text"
  else
    .ok ((splitText c.chunk_size c.chunk_overlap text).enum.map
      fun p => { chunk_index := p.1, chunk_text := p.2,
                 chunk_size := p.2.length, metadata := metadata })

/-- C5: on every successful call, chunk_text returns at least one chunk,
the chunk_index values are exactly the positions 0..N-1 in source order
(strictly increasing, no gaps), and every chunk's chunk_size equals the
length of its chunk_text.  Successful calls are exactly the calls on
non-blank text (see C6). -/
theorem c5_chunk_indices_and_sizes (c : SemanticChunker) (text : String)
    (md : Metadata) (chunks : List Chunk)
    (h : c.chunk_text text md = .ok chunks) :
    1 ≤ chunks.length ∧
      (∀ i (hi : i < chunks.length), (chunks.get ⟨i, hi⟩).chunk_index = i) ∧
      (∀ ch ∈ chunks, ch.chunk_size = ch.chunk_text.length) := by
  unfold SemanticChunker.chunk_text at h
  by_cases hb : pythonBlank text = true
  · rw [if_pos hb] at h
    cases h
  · rw [if_neg hb] at h
    cases h
    refine ⟨?_, ?_, ?_⟩
    · rw [List.length_map, List.enum_length]
      exact List.length_pos.mpr (splitText_ne_nil _ _ _)
    · intro i hi
      simp [List.get_eq_getElem, List.getElem_map, List.getElem_enum]
    · intro ch hch
      obtain ⟨p, _, rfl⟩ := List.mem_map.mp hch
      rfl

/-- Sample chunk list: chunking "hello" with the default configuration
yields a single chunk holding the whole text. -/
def sampleChunks : List Chunk :=
  [{ chunk_index := 0, chunk_text := "hello", chunk_size := 5, metadata := [] }]

/-- C5 witness: the theorem applied to the concrete call on "hello" with
the default configuration. -/
theorem c5_chunk_indices_and_sizes_witness :
    1 ≤ sampleChunks.length ∧
      (∀ i (hi : i < sampleChunks.length), (sampleChunks.get ⟨i, hi⟩).chunk_index = i) ∧
      (∀ ch ∈ sampleChunks, ch.chunk_size = ch.chunk_text.length) :=
  c5_chunk_indices_and_sizes ⟨512, 50⟩ "hello" [] sampleChunks (by rfl)

/-- C6: for every chunker configuration with overlap < max_size,
chunk_text raises exactly on blank input (empty or whitespace-only text)
and returns normally on every other input — chunking is total. -/
theorem c6_chunk_error_iff_blank (c : SemanticChunker) (text : String)
    (md : Metadata) (_hconfig : c.chunk_overlap < c.chunk_size) :
    isErr (c.chunk_text text md) = pythonBlank text := by
  cases hpb : pythonBlank text <;>
    simp [SemanticChunker.chunk_text, hpb, isErr]

/-- C6 witness: the theorem applied to the default configuration and the
empty string, where the call errs exactly as pythonBlank prescribes. -/
theorem c6_chunk_error_iff_blank_witness :
    (⟨512, 50⟩ : SemanticChunker).chunk_overlap < (⟨512, 50⟩ : SemanticChunker).chunk_size ∧
      isErr ((⟨512, 50⟩ : SemanticChunker).chunk_text "" []) = pythonBlank "" :=
  ⟨by decide, c6_chunk_error_iff_blank ⟨512, 50⟩ "" [] (by decide)⟩

/-- C7: explicitly constructing the chunker with positive configuration
values where overlap ≥ chunk_size is rejected as a configuration error:
construction fails rather than producing a usable chunker. -/
theorem c7_overlap_config_rejected (size overlap : Nat) (hpos : 0 < size)
    (hge : size ≤ overlap) :
    isErr (mkSemanticChunker (some size) (some overlap)) = true := by
  have hsz : size ≠ 0 := by omega
  have hov : overlap ≠ 0 := by omega
  simp [mkSemanticChunker, orDefault, hsz, hov, hge, isErr]

/-- C7 witness: the theorem applied to the concrete configuration
size = 5, overlap = 5. -/
theorem c7_overlap_config_rejected_witness :
    0 < 5 ∧ 5 ≤ 5 ∧ isErr (mkSemanticChunker (some 5) (some 5)) = true :=
  ⟨by decide, by decide, c7_overlap_config_rejected 5 5 (by decide) (by decide)⟩

/-- C8: chunking is deterministic — two chunkers constructed with the
same configuration produce identical chunk sequences on the same text
and metadata. -/
theorem c8_chunking_deterministic (cs co : Option Nat)
    (c₁ c₂ : SemanticChunker) (text : String) (md : Metadata)
    (h₁ : mkSemanticChunker cs co = .ok c₁)
    (h₂ : mkSemanticChunker cs co = .ok c₂) :
    c₁.chunk_text text md = c₂.chunk_text text md := by
  have hcc : (Except.ok c₁ : Except String SemanticChunker) = Except.ok c₂ :=
    h₁.symm.trans h₂
  injection hcc with hcc
  rw [hcc]

/-- C8 witness: the theorem applied to two constructions with size 8 and
overlap 3 on the text "hi". -/
theorem c8_chunking_deterministic_witness :
    SemanticChunker.chunk_text ⟨8, 3⟩ "hi" [] = SemanticChunker.chunk_text ⟨8, 3⟩ "hi" [] :=
  c8_chunking_deterministic (some 8) (some 3) ⟨8, 3⟩ ⟨8, 3⟩ "hi" []
    (by rfl) (by rfl)

/-! ## Stage 1: processing task (src/processing_service/tasks/process_document.py) -/

/-- Row of the chunks table (src/shared/database.py, SCHEMA lines 31-40);
also the chunk dictionaries carried by an embedding job.  The metadata
column, a stringified dict in SQLite, is modelled as the map itself. -/
structure ChunkRecord where
  chunk_id : String
  document_id : String
  chunk_index : Nat
  chunk_text : String
  chunk_size : Nat
  metadata : Metadata
deriving DecidableEq, Repr

/-- Payload of a job on the "embedding" queue
(src/processing_service/tasks/process_document.py lines 103-106). -/
structure EmbeddingJob where
  document_id : String
  chunks : List ChunkRecord
deriving DecidableEq, Repr

/-- Shared mutable state touched by the stage-1 task: the documents
table, the chunks table, and the embedding queue. -/
structure PipelineState where
  documents : List DocumentRecord
  chunks : List ChunkRecord
  embedding_queue : List EmbeddingJob
deriving DecidableEq, Repr

/-- Outcome of the file checks and text extraction for one file path:
the file may be missing (Path.exists false, src line 51), invalid
(validate_file false, src line 54), or readable with extracted text and
metadata (src line 59).  The file system and the format readers are
modelled by a function from paths to outcomes. -/
inductive FileOutcome where
  | missing
  | invalid
  | extracted (text : String) (doc_metadata : Metadata)
deriving DecidableEq, Repr

/-- Result dictionary returned by a successful stage-1 run
(src lines 112-118). -/
structure ProcessResult where
  document_id : String
  num_chunks : Nat
deriving DecidableEq, Repr

/-- Failure exit of process_document_task (src lines 123-128): the
document is marked failed with the message "Processing failed: " plus
the exception text, and the exception is re-raised. -/
def processFailure (st : PipelineState) (document_id msg : String) (now : Nat) :
    PipelineState × Except String ProcessResult :=
  ({ st with
     documents := update_document_status st.documents document_id "failed"
       (some ("Processing failed: " ++ msg)) now },
   .error ("Processing failed: " ++ msg))

/-- Embedding of process_document_task (src lines 17-128): set the
document to "processing"; reject unsupported file types (lines 43-48);
check existence and validity of the file (lines 51-55); extract text
(line 59); chunk it with the default chunker configuration and the
document context merged into the metadata (lines 66-76); build chunk
records with generated chunk ids (lines 83-95); append them to the
chunks table (line 99); enqueue the stage-2 embedding job (lines
101-108).  Every raised exception lands in processFailure.  genId models
the uuid-based chunk-id generation as a function of the chunk position. -/
def process_document_task (fs : String → FileOutcome) (genId : Nat → String)
    (st : PipelineState) (document_id file_path file_type : String) (now : Nat) :
    PipelineState × Except String ProcessResult :=
  let st₁ : PipelineState :=
    { st with documents := update_document_status st.documents document_id "processing" none now }
  if file_type = "pdf" ∨ file_type = "docx" then
    match fs file_path with
    | .missing => processFailure st₁ document_id ("File not found: " ++ file_path) now
    | .invalid => processFailure st₁ document_id ("Invalid or corrupted file: " ++ file_path) now
    | .extracted text doc_metadata =>
      let chunker : SemanticChunker := { chunk_size := CHUNK_SIZE, chunk_overlap := CHUNK_OVERLAP }
      let chunk_metadata : Metadata :=
        ("document_id", document_id) :: ("file_type", file_type) :: doc_metadata
      match chunker.chunk_text text chunk_metadata with
      | .error e => processFailure st₁ document_id e now
      | .ok chunks =>
        let chunk_records := chunks.map fun ch =>
          ({ chunk_id := genId ch.chunk_index, document_id := document_id,
             chunk_index := ch.chunk_index, chunk_text := ch.chunk_text,
             chunk_size := ch.chunk_size, metadata := ch.metadata } : ChunkRecord)
        ({ st₁ with
           chunks := st₁.chunks ++ chunk_records,
           embedding_queue := st₁.embedding_queue ++
             [{ document_id := document_id, chunks := chunk_records }] },
         .ok { document_id := document_id, num_chunks := chunk_records.length })
  else
    processFailure st₁ document_id ("Unsupported file type: " ++ file_type) now

lemma processFailure_chunks (st : PipelineState) (document_id msg : String)
    (now : Nat) : (processFailure st document_id msg now).1.chunks = st.chunks :=
  rfl

lemma processFailure_queue (st : PipelineState) (document_id msg : String)
    (now : Nat) :
    (processFailure st document_id msg now).1.embedding_queue = st.embedding_queue :=
  rfl

lemma processFailure_isErr (st : PipelineState) (document_id msg : String)
    (now : Nat) : isErr (processFailure st document_id msg now).2 = true :=
  rfl

/-- A failure exit marks every matching document failed with a non-empty
error message. -/
lemma processFailure_status (st : PipelineState) (document_id msg : String)
    (now : Nat) (d : DocumentRecord)
    (hd : d ∈ (processFailure st document_id msg now).1.documents)
    (hid : d.document_id = document_id) :
    d.status = "failed" ∧ ∃ m, d.error_message = some m ∧ 0 < m.length := by
  have h := update_document_status_targeted hd hid
  refine ⟨h.1, "Processing failed: " ++ msg, h.2.1, ?_⟩
  rw [String.length_append]
  have : 0 < "Processing failed: ".length := by decide
  omega

/-- C4: a stage-1 job whose file fails validation — unsupported type,
missing file, or corrupt/invalid file — ends with the task re-raising
(error result), the document marked "failed" with a non-empty
error_message, no chunk records persisted, and no stage-2 embedding job
enqueued. -/
theorem c4_stage1_validation_failure (fs : String → FileOutcome)
    (genId : Nat → String) (st : PipelineState)
    (document_id file_path file_type : String) (now : Nat)
    (hbad : ¬(file_type = "pdf" ∨ file_type = "docx") ∨
      fs file_path = .missing ∨ fs file_path = .invalid) :
    isErr (process_document_task fs genId st document_id file_path file_type now).2 = true ∧
      (process_document_task fs genId st document_id file_path file_type now).1.chunks
        = st.chunks ∧
      (process_document_task fs genId st document_id file_path file_type now).1.embedding_queue
        = st.embedding_queue ∧
      (∀ d ∈ (process_document_task fs genId st document_id file_path file_type now).1.documents,
        d.document_id = document_id →
          d.status = "failed" ∧ ∃ m, d.error_message = some m ∧ 0 < m.length) := by
  have hfail : ∃ msg st₁,
      process_document_task fs genId st document_id file_path file_type now
          = processFailure st₁ document_id msg now ∧
        st₁.chunks = st.chunks ∧ st₁.embedding_queue = st.embedding_queue := by
    unfold process_document_task
    rcases hbad with hty | hmiss | hinv
    · rw [if_neg hty]
      exact ⟨_, _, rfl, rfl, rfl⟩
    · by_cases hty : file_type = "pdf" ∨ file_type = "docx"
      · rw [if_pos hty, hmiss]
        exact ⟨_, _, rfl, rfl, rfl⟩
      · rw [if_neg hty]
        exact ⟨_, _, rfl, rfl, rfl⟩
    · by_cases hty : file_type = "pdf" ∨ file_type = "docx"
      · rw [if_pos hty, hinv]
        exact ⟨_, _, rfl, rfl, rfl⟩
      · rw [if_neg hty]
        exact ⟨_, _, rfl, rfl, rfl⟩
  obtain ⟨msg, st₁, heq, hc, hq⟩ := hfail
  rw [heq]
  refine ⟨processFailure_isErr .., ?_, ?_, ?_⟩
  · rw [processFailure_chunks]
    exact hc
  · rw [processFailure_queue]
    exact hq
  · intro d hd hid
    exact processFailure_status st₁ document_id msg now d hd hid

/-- Sample stage-1 state: one uploaded document, no chunks, empty queue. -/
def sampleState : PipelineState :=
  { documents := [docUploaded], chunks := [], embedding_queue := [] }

/-- File-system model in which every path is missing. -/
def fsAllMissing : String → FileOutcome := fun _ => FileOutcome.missing

/-- Chunk-id generation model used by witnesses. -/
def genIdSimple : Nat → String := fun n => "chunk_" ++ toString n

/-- C4 witness: the theorem applied to the concrete one-document state
with a missing file. -/
theorem c4_stage1_validation_failure_witness :
    isErr (process_document_task fsAllMissing genIdSimple sampleState
        "d1" "/app/storage/uploads/d1_a.pdf" "pdf" 2).2 = true ∧
      (process_document_task fsAllMissing genIdSimple sampleState
        "d1" "/app/storage/uploads/d1_a.pdf" "pdf" 2).1.chunks = sampleState.chunks ∧
      (process_document_task fsAllMissing genIdSimple sampleState
        "d1" "/app/storage/uploads/d1_a.pdf" "pdf" 2).1.embedding_queue
        = sampleState.embedding_queue ∧
      (∀ d ∈ (process_document_task fsAllMissing genIdSimple sampleState
          "d1" "/app/storage/uploads/d1_a.pdf" "pdf" 2).1.documents,
        d.document_id = "d1" →
          d.status = "failed" ∧ ∃ m, d.error_message = some m ∧ 0 < m.length) :=
  c4_stage1_validation_failure fsAllMissing genIdSimple sampleState
    "d1" "/app/storage/uploads/d1_a.pdf" "pdf" 2 (Or.inr (Or.inl rfl))

/-! ## Stage 2: embedding task and vector index
(src/embedding_service/tasks/embed_document.py, src/shared/vector_store.py) -/

/-- Object stored in the vector-index collection, with the properties of
the DocumentChunk schema (src/shared/vector_store.py lines 64-98).  The
embedding vector attached to each object is produced by the external
embedding provider and plays no role in the claims, so it is not
modelled. -/
structure VectorRecord where
  document_id : String
  chunk_id : String
  chunk_index : Nat
  text : String
  filename : String
  file_type : String
deriving DecidableEq, Repr

/-- Embedding of add_documents_to_vectorstore (src/shared/vector_store.py
lines 142-169): the call hands the documents to the underlying store's
add_documents with no object ids and no conflict key, so each given
record is inserted as a new object.  (The spec's design notes, section 9,
record that vector-record writes are not upsert-on-conflict.)  The index
is modelled as the list of stored records. -/
def add_documents_to_vectorstore (index : List VectorRecord)
    (documents : List VectorRecord) : List VectorRecord :=
  index ++ documents

/-- Vector-store object built for one chunk by embed_document_task
(src/embedding_service/tasks/embed_document.py lines 54-78): the chunk's
identifiers and text plus the owning document's filename and file_type. -/
def buildVectorRecord (document_id : String) (doc : DocumentRecord)
    (ch : ChunkRecord) : VectorRecord :=
  { document_id := document_id, chunk_id := ch.chunk_id,
    chunk_index := ch.chunk_index, text := ch.chunk_text,
    filename := doc.filename, file_type := doc.file_type }

/-- Embedding of embed_document_task (src lines 17-112): reject an empty
chunk list (lines 38-39); look the document up (lines 46-48); build one
vector record per chunk (lines 52-78); write them all to the vector
index (lines 86-89); mark the document completed (line 94).  On any
failure the document is marked failed and the error re-raised (lines
107-112), with the index untouched. -/
def embed_document_task (docs : List DocumentRecord) (index : List VectorRecord)
    (document_id : String) (chunks : List ChunkRecord) (now : Nat) :
    List DocumentRecord × List VectorRecord × Except String Nat :=
  if chunks.isEmpty then
    (update_document_status docs document_id "failed"
      (some "Embedding failed: No chunks provided for embedding") now,
     index, .error "Embedding failed: No chunks provided for embedding")
  else
    match get_document docs document_id with
    | none =>
      (update_document_status docs document_id "failed"
        (some ("Embedding failed: Document not found: " ++ document_id)) now,
       index, .error ("Embedding failed: Document not found: " ++ document_id))
    | some doc =>
      let records := chunks.map (buildVectorRecord document_id doc)
      (update_document_status docs document_id "completed" none now,
       add_documents_to_vectorstore index records,
       .ok records.length)

/-- Number of records in the index carrying a given
(document_id, chunk_id) pair — the pair the spec designates as the
de-duplication key. -/
def countKey (index : List VectorRecord) (document_id chunk_id : String) : Nat :=
  index.countP fun r => r.document_id == document_id && r.chunk_id == chunk_id

/-- Sample chunk record carried by an embedding job for document d1. -/
def chunkC1 : ChunkRecord :=
  { chunk_id := "c1", document_id := "d1", chunk_index := 0,
    chunk_text := "hello", chunk_size := 5, metadata := [] }

/-- First run of the embedding stage for document d1 on an empty index. -/
def embedRun1 : List DocumentRecord × List VectorRecord × Except String Nat :=
  embed_document_task [docProcessing] [] "d1" [chunkC1] 6

/-- Re-run of the embedding stage with the same job payload on the state
left by the first run. -/
def embedRun2 : List DocumentRecord × List VectorRecord × Except String Nat :=
  embed_document_task embedRun1.1 embedRun1.2.1 "d1" [chunkC1] 7

/-- C3: counterexample.  Running embed_document_task twice with the same
job payload leaves two vector records with the same
(document_id, chunk_id) pair in the index — not at most one. -/
theorem c3_duplicate_vector_records :
    countKey embedRun2.2.1 "d1" "c1" = 2 ∧ ¬countKey embedRun2.2.1 "d1" "c1" ≤ 1 := by
  decide

/-- C3 (amended): the embedding stage performs no de-duplication — every
successful run appends a fresh vector record for each chunk of the
payload, so the number of records for a chunk's (document_id, chunk_id)
pair strictly grows with every re-run. -/
theorem c3_rerun_adds_records (docs : List DocumentRecord)
    (index : List VectorRecord) (document_id : String)
    (chunks : List ChunkRecord) (now : Nat) (ch : ChunkRecord)
    (hch : ch ∈ chunks)
    (hok : isErr (embed_document_task docs index document_id chunks now).2.2 = false) :
    countKey index document_id ch.chunk_id + 1 ≤
      countKey (embed_document_task docs index document_id chunks now).2.1
        document_id ch.chunk_id := by
  by_cases hemp : chunks.isEmpty
  · simp [embed_document_task, hemp, isErr] at hok
  · cases hdoc : get_document docs document_id with
    | none => simp [embed_document_task, hemp, hdoc, isErr] at hok
    | some doc =>
      have hidx : (embed_document_task docs index document_id chunks now).2.1
          = index ++ chunks.map (buildVectorRecord document_id doc) := by
        simp [embed_document_task, hemp, hdoc, add_documents_to_vectorstore]
      rw [hidx]
      unfold countKey
      rw [List.countP_append]
      have hpos : 0 < (chunks.map (buildVectorRecord document_id doc)).countP
          fun r => r.document_id == document_id && r.chunk_id == ch.chunk_id := by
        refine List.countP_pos_iff.mpr ?_
        refine ⟨buildVectorRecord document_id doc ch, List.mem_map_of_mem _ hch, ?_⟩
        simp [buildVectorRecord]
      omega

/-- C3 (amended) witness: the amended theorem applied to the concrete
re-run embedRun2, which adds a second record for ("d1", "c1") on top of
the one left by embedRun1. -/
theorem c3_rerun_adds_records_witness :
    countKey embedRun1.2.1 "d1" chunkC1.chunk_id + 1 ≤
      countKey (embed_document_task embedRun1.1 embedRun1.2.1 "d1" [chunkC1] 7).2.1
        "d1" chunkC1.chunk_id :=
  c3_rerun_adds_records embedRun1.1 embedRun1.2.1 "d1" [chunkC1] 7 chunkC1
    (by decide) (by decide)

/-! ## Ingestion route (src/ingestion_service/routes/ingest.py) -/

/-- Payload of a job on the "processing" queue (src lines 108-112). -/
structure ProcessingJob where
  document_id : String
  file_path : String
  file_type : String
deriving DecidableEq, Repr

/-- Response body of a successful ingestion (src lines 118-126). -/
structure IngestResponse where
  document_id : String
  filename : String
  file_type : String
  file_size : Nat
  status : String
deriving DecidableEq, Repr

/-- Maximum accepted upload size in bytes (src/shared/config.py line 22). -/
def MAX_FILE_SIZE : Nat := 52428800

/-- Lower-cased extension of a filename, dot included, as computed by
Path(filename).suffix.lower() on src line 45: everything from the last
dot on, or the empty string when there is no dot (pathlib's hidden-file
corner cases are not modelled). -/
def fileExtension (filename : String) : String :=
  let revName := filename.toList.reverse
  let revExt := revName.takeWhile fun c => c != '.'
  if revExt.length < revName.length then
    String.mk ('.' :: (revExt.reverse.map Char.toLower))
  else ""

/-- Embedding of ingest_document (src lines 29-137): validate the file
extension (lines 44-51); reject empty content (lines 61-66) and
oversized content (lines 68-73); only then build the document record
with status "uploaded" (lines 94-104), append it to the store, and
enqueue the stage-1 processing job (lines 107-115).  Uploaded bytes are
modelled as a list, the generated document id and the clock as
arguments; saving the file to disk is plumbing and not modelled. -/
def ingest_document (store : List DocumentRecord) (queue : List ProcessingJob)
    (filename : String) (content : List Nat) (docId : String) (now : Nat) :
    List DocumentRecord × List ProcessingJob × Except (Nat × String) IngestResponse :=
  let ext := fileExtension filename
  if ext ≠ ".pdf" ∧ ext ≠ ".docx" then
    (store, queue, .error (400, "Invalid file type. Only PDF and DOCX files are supported."))
  else
    let file_size := content.length
    if file_size = 0 then
      (store, queue, .error (400, "File is empty"))
    else if MAX_FILE_SIZE < file_size then
      (store, queue, .error (413, "File size exceeds maximum allowed size"))
    else
      let file_type := if ext = ".pdf" then "pdf" else "docx"
      let file_path := "/app/storage/uploads/" ++ docId ++ "_" ++ filename
      let record : DocumentRecord :=
        { document_id := docId, filename := filename, file_path := file_path,
          file_type := file_type, file_size := file_size, status := "uploaded",
          upload_time := now, processing_started_time := none,
          processing_completed_time := none, error_message := none,
          created_at := now, updated_at := now }
      (store ++ [record],
       queue ++ [{ document_id := docId, file_path := file_path, file_type := file_type }],
       .ok { document_id := docId, filename := filename, file_type := file_type,
             file_size := file_size, status := "uploaded" })

/-- C9: a zero-byte upload is rejected with a validation error before
any state change: the document store and the processing queue are
unchanged, the call errs, and when the extension was acceptable the
error is the 400 "File is empty" rejection, raised before any Document
record is created or any job enqueued. -/
theorem c9_empty_file_rejected (store : List DocumentRecord)
    (queue : List ProcessingJob) (filename docId : String) (now : Nat)
    (content : List Nat) (hempty : content = []) :
    (ingest_document store queue filename content docId now).1 = store ∧
      (ingest_document store queue filename content docId now).2.1 = queue ∧
      isErr (ingest_document store queue filename content docId now).2.2 = true ∧
      ((fileExtension filename = ".pdf" ∨ fileExtension filename = ".docx") →
        (ingest_document store queue filename content docId now).2.2
          = .error (400, "File is empty")) := by
  subst hempty
  unfold ingest_document
  by_cases hext : fileExtension filename ≠ ".pdf" ∧ fileExtension filename ≠ ".docx"
  · rw [if_pos hext]
    refine ⟨rfl, rfl, rfl, ?_⟩
    intro hval
    rcases hval with h | h
    · exact absurd h hext.1
    · exact absurd h hext.2
  · rw [if_neg hext]
    exact ⟨rfl, rfl, rfl, fun _ => rfl⟩

/-- C9 witness: the theorem applied to the concrete zero-byte upload of
"a.pdf" against the empty store and queue. -/
theorem c9_empty_file_rejected_witness :
    (ingest_document [] [] "a.pdf" [] "d9" 0).1 = [] ∧
      (ingest_document [] [] "a.pdf" [] "d9" 0).2.1 = [] ∧
      isErr (ingest_document [] [] "a.pdf" [] "d9" 0).2.2 = true ∧
      ((fileExtension "a.pdf" = ".pdf" ∨ fileExtension "a.pdf" = ".docx") →
        (ingest_document [] [] "a.pdf" [] "d9" 0).2.2 = .error (400, "File is empty")) :=
  c9_empty_file_rejected [] [] "a.pdf" "d9" 0 [] rfl

end IngestionPipeline
